import Mathlib

/-!
Shallow embedding of the `remainder.record` Odoo model
(`src/models/remainder.py`) and proofs of the specification claims.

Dates are modelled as proleptic-Gregorian calendar triples with the
standard days-from-civil conversion, mirroring Python `datetime.date`:
date subtraction yields whole days, `date - timedelta(days=n)` shifts the
ordinal by `n`, and `strftime('%Y-%m-%d')` / `str(date)` zero-pad month
and day. Monetary/float amounts are modelled as rationals. The ORM,
mail and activity subsystems are modelled by their observable effects:
`write` returns the updated record plus the chatter messages it posted,
and the daily cron returns the multiset (ordered list) of notifications,
scheduled activities and chatter log entries it produced.
-/

/-- A calendar date, as Python's `datetime.date`. -/
structure PyDate where
  year : Int
  month : Int
  day : Int
deriving DecidableEq, Repr

/-- Day ordinal of a date (days since 1970-01-01, proleptic Gregorian),
the standard civil-from-days inverse used by `datetime.date.toordinal`.
Whole-day subtraction of two dates is the difference of their ordinals. -/
def daysFromCivil (dt : PyDate) : Int :=
  let y : Int := dt.year - (if dt.month ≤ 2 then 1 else 0)
  let era : Int := (if 0 ≤ y then y else y - 399) / 400
  let yoe : Int := y - era * 400
  let doy : Int := (153 * (dt.month + (if 2 < dt.month then -3 else 9)) + 2) / 5 + dt.day - 1
  let doe : Int := yoe * 365 + yoe / 4 - yoe / 100 + doy
  era * 146097 + doe - 719468

/-- Zero-pad a (month/day) number to two digits, as `%m` / `%d`. -/
def pad2 (n : Int) : String := (if n < 10 then "0" else "") ++ toString n

/-- Python `date.strftime('%Y-%m-%d')`, also `str(date)` (ISO format). -/
def formatYmd (dt : PyDate) : String :=
  toString dt.year ++ "-" ++ pad2 dt.month ++ "-" ++ pad2 dt.day

/-- The workflow `state` selection field: draft / confirmed / cancelled. -/
inductive RState
  | draft
  | confirmed
  | cancelled
deriving DecidableEq, Repr

/-- A `remainder.record` row.  `purchase_deadline` is `Option` because the
cron and the computed fields guard on its falsiness (`if not
record.purchase_deadline`).  `reminder_days_before` holds the integer value
of the selection ('7'/'15'/'30'/'60'/'90'), as `int(...)` produces in the
cron.  `days_to_deadline` and `total_value` are the stored computed
columns.  `user_name` is the `name` of the `res.users` row `user_id`
points at (used only in the chatter log line). -/
structure RemainderRecord where
  id : Nat
  partner_number : String
  product_name : String
  quantity : Rat
  price : Rat
  purchase_deadline : Option PyDate
  reminder_recipient_email : String
  reminder_days_before : Int
  user_id : Nat
  user_name : String
  state : RState
  days_to_deadline : Int
  total_value : Rat
deriving DecidableEq, Repr

/-- Compute method `_compute_days_to_deadline`: `(purchase_deadline - today).days` if the
deadline is set, else 0. -/
def compute_days_to_deadline (today : PyDate) (r : RemainderRecord) : Int :=
  match r.purchase_deadline with
  | some d => daysFromCivil d - daysFromCivil today
  | none => 0

/-- Compute method `_compute_total_value`: `quantity * price`. -/
def compute_total_value (r : RemainderRecord) : Rat :=
  r.quantity * r.price

/-- Compute method `_compute_color`: the kanban color chain, first match wins. -/
def compute_color (today : PyDate) (r : RemainderRecord) : Int :=
  if r.state = RState.cancelled then 1
  else if (match r.purchase_deadline with
           | some d => decide (daysFromCivil d < daysFromCivil today)
           | none => false) then 1
  else if (match r.purchase_deadline with
           | some d => decide (daysFromCivil d - daysFromCivil today ≤ 7)
           | none => false) then 2
  else if r.state = RState.confirmed then 7
  else if r.state = RState.draft then 9
  else 0

/-- Re-run the stored computed fields (`@api.depends` recomputation after
any write touching their dependencies). -/
def recompute (today : PyDate) (r : RemainderRecord) : RemainderRecord :=
  { r with
    days_to_deadline := compute_days_to_deadline today r
    total_value := compute_total_value r }

/-- Display name `name_get`: `"<Product Name> (<Partner Number>)"`. -/
def name_get_one (r : RemainderRecord) : Nat × String :=
  (r.id, r.product_name ++ " (" ++ r.partner_number ++ ")")

/-- Business action `action_confirm`: `self.state = 'confirmed'` writes the state of every
record in the recordset, unconditionally. -/
def action_confirm (rs : List RemainderRecord) : List RemainderRecord :=
  rs.map (fun r => { r with state := RState.confirmed })

/-- The `UserError` text raised by `action_draft` on a cancelled record. -/
def cancelResetError : String :=
  "Cannot reset a cancelled reminder to Draft. Please create a new record instead."

/-- Business action `action_draft`: iterate the recordset in order; raise a `UserError` at
the first cancelled record, otherwise set each record to draft.  On error
the result carries the records as they stand when the exception is raised:
records before the cancelled one have already been written to draft, the
cancelled one and the rest are untouched — this logic performs no
rollback. -/
def action_draft : List RemainderRecord → Except (String × List RemainderRecord) (List RemainderRecord)
  | [] => Except.ok []
  | r :: rs =>
    if r.state = RState.cancelled then
      Except.error (cancelResetError, r :: rs)
    else
      match action_draft rs with
      | Except.ok done => Except.ok ({ r with state := RState.draft } :: done)
      | Except.error (msg, db2) =>
          Except.error (msg, { r with state := RState.draft } :: db2)

/-- Single-record semantics of the two state-transition actions, for
reasoning about action sequences.  `confirm` always writes confirmed
(`action_confirm` has no precondition); `resetToDraft` on a cancelled
record raises and leaves the record unchanged, otherwise writes draft
(`action_draft` on the singleton recordset). -/
inductive StateAction
  | confirm
  | resetToDraft
deriving DecidableEq, Repr

/-- Apply one state-transition action to a single record; a raised
`UserError` leaves the record unchanged. -/
def applyAction (r : RemainderRecord) : StateAction → RemainderRecord
  | StateAction.confirm => { r with state := RState.confirmed }
  | StateAction.resetToDraft =>
      if r.state = RState.cancelled then r else { r with state := RState.draft }

/-- Run a sequence of state-transition actions on a single record. -/
def runActions (r : RemainderRecord) (acts : List StateAction) : RemainderRecord :=
  acts.foldl applyAction r

/-- The `vals` dictionary of a `write` call.  `none` means the key is
absent from `vals`.  `purchase_deadline` is a required date field, so a
present key carries a date (already through `fields.Date.to_date`). -/
structure WriteVals where
  purchase_deadline : Option PyDate := none
  quantity : Option Rat := none
  price : Option Rat := none
  state : Option RState := none
deriving DecidableEq, Repr

/-- Base `super().write(vals)`: apply the present keys to the record, then the
ORM recomputes the stored computed fields that depend on them. -/
def applyVals (today : PyDate) (r : RemainderRecord) (vals : WriteVals) : RemainderRecord :=
  recompute today
    { r with
      purchase_deadline :=
        match vals.purchase_deadline with
        | some d => some d
        | none => r.purchase_deadline
      quantity := match vals.quantity with | some q => q | none => r.quantity
      price := match vals.price with | some p => p | none => r.price
      state := match vals.state with | some s => s | none => r.state }

/-- Failure text of `ensure_one` text (Odoo raises `ValueError` on a recordset
that is not a singleton). -/
def ensureOneError : String := "Expected singleton: remainder.record"

/-- The overridden `write`: `ensure_one` first (error on an empty or
multi-record set, nothing updated); then, if `vals` contains
`purchase_deadline`, the stored deadline is set, and the new date differs
from the stored one, post the chatter note
`"**Purchase Deadline Modified:** {old} → {new}"` with both dates
`strftime('%Y-%m-%d')`; finally `super().write(vals)`.  Returns the
updated singleton and the list of chatter messages posted. -/
def write (today : PyDate) (rs : List RemainderRecord) (vals : WriteVals) :
    Except String (List RemainderRecord × List String) :=
  match rs with
  | [r] =>
      let msgs : List String :=
        match vals.purchase_deadline, r.purchase_deadline with
        | some newd, some oldd =>
            if oldd ≠ newd then
              ["**Purchase Deadline Modified:** " ++ formatYmd oldd ++ " → " ++ formatYmd newd]
            else []
        | _, _ => []
      Except.ok ([applyVals today r vals], msgs)
  | _ => Except.error ensureOneError

/-- A reminder e-mail dispatched by the cron
(`template.send_mail(record.id, email_values={'email_to': ...},
force_send=True)`). -/
structure Notification where
  record_id : Nat
  email_to : String
  force_send : Bool
deriving DecidableEq, Repr

/-- A To-Do activity scheduled by the cron (`activity_schedule`). -/
structure Activity where
  record_id : Nat
  user_id : Nat
  summary : String
  note : String
  date_deadline : PyDate
deriving DecidableEq, Repr

/-- A chatter log entry posted by the cron (`message_post`). -/
structure AuditEntry where
  record_id : Nat
  body : String
deriving DecidableEq, Repr

/-- All side effects of one cron run. -/
structure SweepEffects where
  notifications : List Notification
  activities : List Activity
  audit_log : List AuditEntry
deriving DecidableEq, Repr

/-- No side effects. -/
def SweepEffects.empty : SweepEffects := ⟨[], [], []⟩

/-- Concatenate effects, preserving order. -/
def SweepEffects.append (a b : SweepEffects) : SweepEffects :=
  ⟨a.notifications ++ b.notifications,
   a.activities ++ b.activities,
   a.audit_log ++ b.audit_log⟩

/-- Effects of the cron body for one record of `records_to_check`
(the body of the `for record in records_to_check` loop): skip if the
deadline is unset (`continue`); else fire the three side effects exactly
when `today == purchase_deadline - timedelta(days=reminder_days_before)`,
i.e. when the day ordinals satisfy `today = deadline - n`. -/
def record_sweep_effects (today : PyDate) (r : RemainderRecord) : SweepEffects :=
  match r.purchase_deadline with
  | none => SweepEffects.empty
  | some dl =>
      let n : Int := r.reminder_days_before
      if daysFromCivil today = daysFromCivil dl - n then
        { notifications := [⟨r.id, r.reminder_recipient_email, true⟩]
          activities := [⟨r.id, r.user_id,
            "DEADLINE ALERT: Follow up on " ++ r.product_name ++
              " (Due in " ++ toString n ++ " days)",
            "Reminder email sent to " ++ r.reminder_recipient_email ++
              ". Follow up before: " ++ formatYmd dl ++ ".",
            today⟩]
          audit_log := [⟨r.id,
            "Deadline reminder email sent and activity created for " ++
              r.user_name ++ "."⟩] }
      else SweepEffects.empty

/-- Effects of the loop over a list of already-filtered records. -/
def sweep_loop (today : PyDate) (rs : List RemainderRecord) : SweepEffects :=
  rs.foldr (fun r acc => (record_sweep_effects today r).append acc) SweepEffects.empty

/-- Daily cron `_check_and_send_deadline_reminder`: search for records with state in
(draft, confirmed); look the mail template up with
`raise_if_not_found=False`; if the template is missing do nothing at all,
else run the loop body over the found records.  `template` is the looked-up
template reference (`none` when not configured/found), `db` the store. -/
def check_and_send_deadline_reminder (today : PyDate) (template : Option String)
    (db : List RemainderRecord) : SweepEffects :=
  let records_to_check :=
    db.filter (fun r => decide (r.state = RState.draft ∨ r.state = RState.confirmed))
  match template with
  | none => SweepEffects.empty
  | some _ => sweep_loop today records_to_check

/-- Modelled from the spec wording of §4.1: the `colorIndex` precedence
chain (1: cancelled; 2: deadline set and before today; 3: deadline set and
at most 7 days from today; 4: confirmed; 5: draft; 6: otherwise 0),
written independently of `_compute_color` for comparison. -/
def colorIndex_spec (today : PyDate) (r : RemainderRecord) : Int :=
  match r.state, r.purchase_deadline with
  | RState.cancelled, _ => 1
  | _, some dl =>
      if daysFromCivil dl < daysFromCivil today then 1
      else if daysFromCivil dl - daysFromCivil today ≤ 7 then 2
      else if r.state = RState.confirmed then 7
      else if r.state = RState.draft then 9
      else 0
  | _, none =>
      if r.state = RState.confirmed then 7
      else if r.state = RState.draft then 9
      else 0

theorem SweepEffects.empty_append (b : SweepEffects) : SweepEffects.empty.append b = b := rfl

theorem SweepEffects.append_assoc (a b c : SweepEffects) :
    (a.append b).append c = a.append (b.append c) := by
  simp [SweepEffects.append]

theorem sweep_loop_nil (today : PyDate) : sweep_loop today [] = SweepEffects.empty := rfl

theorem sweep_loop_cons (today : PyDate) (r : RemainderRecord) (rs : List RemainderRecord) :
    sweep_loop today (r :: rs) = (record_sweep_effects today r).append (sweep_loop today rs) := rfl

theorem sweep_loop_append (today : PyDate) (l1 l2 : List RemainderRecord) :
    sweep_loop today (l1 ++ l2) = (sweep_loop today l1).append (sweep_loop today l2) := by
  induction l1 with
  | nil => simp [sweep_loop_nil, SweepEffects.empty_append]
  | cons a t ih =>
      simp only [List.cons_append, sweep_loop_cons, ih, SweepEffects.append_assoc]

/-- A fixed evaluation day used by concrete instances. -/
def d0601 : PyDate := ⟨2025, 6, 1⟩

/-- A concrete cancelled record with a deadline 30 days past `d0601`. -/
def recCancelled : RemainderRecord :=
  { id := 1, partner_number := "P1", product_name := "Widget", quantity := 3, price := 2,
    purchase_deadline := some ⟨2025, 7, 1⟩, reminder_recipient_email := "to@example.com",
    reminder_days_before := 30, user_id := 7, user_name := "Alice",
    state := RState.cancelled, days_to_deadline := 30, total_value := 6 }

/-- A concrete draft record. -/
def recDraft : RemainderRecord := { recCancelled with id := 2, state := RState.draft }

/-- A concrete confirmed record. -/
def recConfirmed : RemainderRecord := { recCancelled with id := 3, state := RState.confirmed }

/-- A concrete draft record with no purchase deadline. -/
def recNoDeadline : RemainderRecord :=
  { recCancelled with id := 4, state := RState.draft, purchase_deadline := none }

/-- C2: with no notification template configured, the daily sweep performs
zero side effects system-wide — no notification, no activity, no audit
entry, no error — regardless of the records in the store. -/
theorem sweep_no_template_no_effects (today : PyDate) (db : List RemainderRecord) :
    check_and_send_deadline_reminder today none db = SweepEffects.empty := rfl

/-- C7: `daysToDeadline` equals `purchaseDeadline - today` in whole days
when the deadline is set, and 0 when it is unset. -/
theorem days_to_deadline_correct (today : PyDate) (r : RemainderRecord) :
    (∀ dl, r.purchase_deadline = some dl →
      compute_days_to_deadline today r = daysFromCivil dl - daysFromCivil today) ∧
    (r.purchase_deadline = none → compute_days_to_deadline today r = 0) := by
  constructor
  · intro dl h
    simp [compute_days_to_deadline, h]
  · intro h
    simp [compute_days_to_deadline, h]

/-- Witness for C7 at a concrete record with and without a deadline. -/
theorem days_to_deadline_correct_witness :
    compute_days_to_deadline d0601 recDraft = daysFromCivil ⟨2025, 7, 1⟩ - daysFromCivil d0601 ∧
    compute_days_to_deadline d0601 recNoDeadline = 0 :=
  ⟨(days_to_deadline_correct d0601 recDraft).1 ⟨2025, 7, 1⟩ rfl,
   (days_to_deadline_correct d0601 recNoDeadline).2 rfl⟩

/-- C9: `write` requires a singleton recordset: on an empty or
multi-record set `ensure_one` raises and nothing is updated. -/
theorem write_requires_single_record (today : PyDate) (rs : List RemainderRecord)
    (vals : WriteVals) :
    rs.length ≠ 1 → write today rs vals = Except.error ensureOneError := by
  intro h
  cases rs with
  | nil => rfl
  | cons a t =>
      cases t with
      | nil => exact absurd rfl h
      | cons b t2 => rfl

/-- Witness for C9 on the empty recordset and on a two-record set. -/
theorem write_requires_single_record_witness :
    write d0601 [] {} = Except.error ensureOneError ∧
    write d0601 [recDraft, recConfirmed] {} = Except.error ensureOneError :=
  ⟨write_requires_single_record d0601 [] {} (by decide),
   write_requires_single_record d0601 [recDraft, recConfirmed] {} (by decide)⟩

/-- C4: `resetToDraft` on a single cancelled record raises the validation
error and leaves the record untouched (the error state carries the
unchanged record); on a single draft or confirmed record it succeeds and
sets the state to draft. -/
theorem reset_to_draft_single (r : RemainderRecord) :
    (r.state = RState.cancelled →
      action_draft [r] = Except.error (cancelResetError, [r])) ∧
    ((r.state = RState.draft ∨ r.state = RState.confirmed) →
      action_draft [r] = Except.ok [{ r with state := RState.draft }]) := by
  constructor
  · intro h
    simp [action_draft, h]
  · intro h
    have hnc : ¬ r.state = RState.cancelled := by
      rcases h with h | h <;> simp [h]
    simp [action_draft, hnc]

/-- Witness for C4 at a concrete cancelled and a concrete confirmed record. -/
theorem reset_to_draft_single_witness :
    action_draft [recCancelled] = Except.error (cancelResetError, [recCancelled]) ∧
    action_draft [recConfirmed] = Except.ok [{ recConfirmed with state := RState.draft }] :=
  ⟨(reset_to_draft_single recCancelled).1 rfl,
   (reset_to_draft_single recConfirmed).2 (Or.inr rfl)⟩

/-- C3 (counterexample): a cancelled record IS brought back to draft by
the action sequence confirm; resetToDraft — `action_confirm` has no
precondition, so it moves the cancelled record to confirmed, from which
`resetToDraft` succeeds.  Cancelled is therefore not terminal under the
defined actions. -/
theorem cancelled_back_to_draft_counterexample :
    recCancelled.state = RState.cancelled ∧
    (runActions recCancelled [StateAction.confirm, StateAction.resetToDraft]).state =
      RState.draft :=
  ⟨rfl, rfl⟩

/-- C3 (amended): cancelled is terminal for every action sequence that
avoids confirm — starting from a cancelled record, any sequence of
`resetToDraft` actions (each of which raises and changes nothing) leaves
the state cancelled, hence never draft. -/
theorem cancelled_terminal_without_confirm (r : RemainderRecord) (acts : List StateAction) :
    r.state = RState.cancelled → StateAction.confirm ∉ acts →
    (runActions r acts).state = RState.cancelled := by
  induction acts generalizing r with
  | nil => intro h _; exact h
  | cons a t ih =>
      intro h hna
      have ha : a = StateAction.resetToDraft := by
        cases a
        · exact absurd (List.mem_cons_self _ _) hna
        · rfl
      subst ha
      have hfix : applyAction r StateAction.resetToDraft = r := by
        simp [applyAction, h]
      simp only [runActions, List.foldl_cons, hfix]
      exact ih r h (fun hm => hna (List.mem_cons_of_mem _ hm))

/-- Witness for the amended C3: two consecutive `resetToDraft` attempts
leave a concrete cancelled record cancelled. -/
theorem cancelled_terminal_without_confirm_witness :
    (runActions recCancelled [StateAction.resetToDraft, StateAction.resetToDraft]).state =
      RState.cancelled :=
  cancelled_terminal_without_confirm recCancelled
    [StateAction.resetToDraft, StateAction.resetToDraft] rfl (by decide)

/-- C6: `colorIndex` follows the exact first-match-wins precedence of the
spec (cancelled → 1; past deadline → 1; deadline within 7 days → 2;
confirmed → 7; draft → 9; else 0), and in particular a cancelled record
with a future deadline more than 7 days away yields 1. -/
theorem color_precedence (today : PyDate) (r : RemainderRecord) :
    compute_color today r = colorIndex_spec today r ∧
    (∀ dl, r.state = RState.cancelled → r.purchase_deadline = some dl →
      7 < daysFromCivil dl - daysFromCivil today → compute_color today r = 1) := by
  constructor
  · rcases hpd : r.purchase_deadline with _ | dl <;>
      rcases hst : r.state <;>
        simp [compute_color, colorIndex_spec, hpd, hst]
  · intro dl hst _ _
    simp [compute_color, hst]

/-- Witness for C6: a concrete cancelled record whose deadline is 30 days
in the future gets color 1, and the code agrees with the spec chain there. -/
theorem color_precedence_witness :
    compute_color d0601 recCancelled = colorIndex_spec d0601 recCancelled ∧
    compute_color d0601 recCancelled = 1 :=
  ⟨(color_precedence d0601 recCancelled).1,
   (color_precedence d0601 recCancelled).2 ⟨2025, 7, 1⟩ rfl rfl (by decide)⟩

/-- Sample `vals` updating only the quantity. -/
def valsQty : WriteVals := { quantity := some 5 }

/-- C8: `totalValue = quantity * price` holds after recomputation and
after every mutation performed through `write` (the ORM recomputes the
stored field on each write touching quantity or price). -/
theorem total_value_invariant (today : PyDate) (r : RemainderRecord) (vals : WriteVals)
    (recs : List RemainderRecord) (msgs : List String) :
    ((recompute today r).total_value =
      (recompute today r).quantity * (recompute today r).price) ∧
    (write today [r] vals = Except.ok (recs, msgs) →
      ∀ s ∈ recs, s.total_value = s.quantity * s.price) := by
  constructor
  · simp [recompute, compute_total_value]
  · intro h s hs
    simp only [write, Except.ok.injEq, Prod.mk.injEq] at h
    obtain ⟨h1, -⟩ := h
    subst h1
    rw [List.mem_singleton] at hs
    subst hs
    simp [applyVals, recompute, compute_total_value]

/-- Witness for C8: a concrete write setting quantity to 5 leaves the
record with `totalValue = quantity * price`. -/
theorem total_value_invariant_witness :
    (recompute d0601 recDraft).total_value =
      (recompute d0601 recDraft).quantity * (recompute d0601 recDraft).price ∧
    (applyVals d0601 recDraft valsQty).total_value =
      (applyVals d0601 recDraft valsQty).quantity * (applyVals d0601 recDraft valsQty).price :=
  ⟨(total_value_invariant d0601 recDraft valsQty [applyVals d0601 recDraft valsQty] []).1,
   (total_value_invariant d0601 recDraft valsQty [applyVals d0601 recDraft valsQty] []).2
     rfl (applyVals d0601 recDraft valsQty) (List.mem_singleton_self _)⟩

/-- A concrete record whose stored deadline is 2025-01-10. -/
def recJan : RemainderRecord := { recDraft with id := 5, purchase_deadline := some ⟨2025, 1, 10⟩ }

/-- Sample `vals` moving the deadline to 2025-02-01. -/
def valsFeb : WriteVals := { purchase_deadline := some ⟨2025, 2, 1⟩ }

/-- C5 (counterexample): editing the deadline from 2025-01-10 to
2025-02-01 posts exactly one chatter entry, but its text is
`"**Purchase Deadline Modified:** 2025-01-10 → 2025-02-01"` — the label
carries literal markdown bold markers with the colon inside them — not
the claimed `"Purchase Deadline Modified: 2025-01-10 → 2025-02-01"`. -/
theorem deadline_audit_text_counterexample :
    write d0601 [recJan] valsFeb =
      Except.ok ([applyVals d0601 recJan valsFeb],
        ["**Purchase Deadline Modified:** 2025-01-10 → 2025-02-01"]) ∧
    "**Purchase Deadline Modified:** 2025-01-10 → 2025-02-01" ≠
      "Purchase Deadline Modified: 2025-01-10 → 2025-02-01" :=
  ⟨rfl, by decide⟩

/-- C5 (amended): a single-record update posts exactly one audit entry
reading `"**Purchase Deadline Modified:** {old} → {new}"` (dates
`YYYY-MM-DD`) when `vals` sets the deadline to a different value than the
stored one and a stored value existed; it posts nothing when `vals` does
not contain the deadline, when no stored value existed, or when the new
value equals the stored one. -/
theorem deadline_audit_message (today : PyDate) (r : RemainderRecord) (vals : WriteVals)
    (recs : List RemainderRecord) (msgs : List String)
    (h : write today [r] vals = Except.ok (recs, msgs)) :
    (∀ newd oldd, vals.purchase_deadline = some newd → r.purchase_deadline = some oldd →
      oldd ≠ newd →
      msgs = ["**Purchase Deadline Modified:** " ++ formatYmd oldd ++ " → " ++ formatYmd newd]) ∧
    (vals.purchase_deadline = none → msgs = []) ∧
    (r.purchase_deadline = none → msgs = []) ∧
    (∀ d, vals.purchase_deadline = some d → r.purchase_deadline = some d → msgs = []) := by
  simp only [write, Except.ok.injEq, Prod.mk.injEq] at h
  obtain ⟨-, h2⟩ := h
  refine ⟨?_, ?_, ?_, ?_⟩
  · intro newd oldd hv hr hne
    rw [← h2, hv, hr]
    simp [hne]
  · intro hv
    rw [← h2, hv]
  · intro hr
    rw [← h2, hr]
    rcases hv : vals.purchase_deadline with _ | d <;> simp [hv]
  · intro d hv hr
    rw [← h2, hv, hr]
    simp

/-- Witness for the amended C5: the concrete deadline edit from
2025-01-10 to 2025-02-01 posts exactly the bold-labelled entry. -/
theorem deadline_audit_message_witness :
    ["**Purchase Deadline Modified:** 2025-01-10 → 2025-02-01"] =
      ["**Purchase Deadline Modified:** " ++ formatYmd ⟨2025, 1, 10⟩ ++ " → " ++
        formatYmd ⟨2025, 2, 1⟩] :=
  (deadline_audit_message d0601 recJan valsFeb [applyVals d0601 recJan valsFeb]
      ["**Purchase Deadline Modified:** 2025-01-10 → 2025-02-01"] rfl).1
    ⟨2025, 2, 1⟩ ⟨2025, 1, 10⟩ rfl rfl (by decide)

/-- C10: batched `resetToDraft` is not atomic.  For a batch made of
non-cancelled records followed by a cancelled one (and anything after),
the `UserError` is raised at the cancelled record, and at that point every
record before it has already been written to draft; this logic performs no
rollback of those writes, and the records from the cancelled one on are
untouched. -/
theorem reset_to_draft_not_atomic (db1 : List RemainderRecord) (c : RemainderRecord)
    (rest : List RemainderRecord) :
    (∀ x ∈ db1, x.state ≠ RState.cancelled) → c.state = RState.cancelled →
    action_draft (db1 ++ c :: rest) =
      Except.error (cancelResetError,
        db1.map (fun x => { x with state := RState.draft }) ++ c :: rest) := by
  induction db1 with
  | nil =>
      intro _ hc
      simp [action_draft, hc]
  | cons a t ih =>
      intro hall hc
      have ha : ¬ a.state = RState.cancelled := hall a (List.mem_cons_self _ _)
      have ht := ih (fun x hx => hall x (List.mem_cons_of_mem _ hx)) hc
      simp only [List.cons_append, action_draft, ha, if_false, List.append_eq, ht,
        List.map_cons]

/-- Witness for C10: a draft record placed before a cancelled one has
already been moved to draft state when the error is raised. -/
theorem reset_to_draft_not_atomic_witness :
    action_draft [recDraft, recCancelled] =
      Except.error (cancelResetError, [{ recDraft with state := RState.draft }, recCancelled]) :=
  reset_to_draft_not_atomic [recDraft] recCancelled []
    (by
      intro x hx
      rw [List.mem_singleton] at hx
      subst hx
      decide)
    rfl

/-- Unfolding of the sweep when the template is configured: the loop body
runs over the searched records (state draft or confirmed). -/
theorem check_some_eq (today : PyDate) (t : String) (db : List RemainderRecord) :
    check_and_send_deadline_reminder today (some t) db =
      sweep_loop today
        (db.filter (fun x => decide (x.state = RState.draft ∨ x.state = RState.confirmed))) :=
  rfl

/-- C1: during the daily sweep with a configured template, each searched
record (state draft or confirmed) contributes its own effects in order;
a record with a set deadline fires exactly one notification to its
recipient e-mail with immediate send, one activity for its responsible
user due today and one audit entry precisely when today equals the
deadline minus `reminderDaysBefore` days, and contributes nothing
otherwise; a record with no deadline is skipped while the remaining
records are still processed (removing it leaves the sweep unchanged). -/
theorem daily_sweep_reminder (today : PyDate) (t : String) (r : RemainderRecord)
    (db1 db2 : List RemainderRecord) :
    ((r.state = RState.draft ∨ r.state = RState.confirmed) →
      check_and_send_deadline_reminder today (some t) (db1 ++ r :: db2) =
        (check_and_send_deadline_reminder today (some t) db1).append
          ((record_sweep_effects today r).append
            (check_and_send_deadline_reminder today (some t) db2))) ∧
    (∀ dl, r.purchase_deadline = some dl →
      (daysFromCivil today = daysFromCivil dl - r.reminder_days_before →
        (record_sweep_effects today r).notifications =
          [⟨r.id, r.reminder_recipient_email, true⟩] ∧
        (record_sweep_effects today r).activities.map
          (fun a => (a.record_id, a.user_id, a.date_deadline)) = [(r.id, r.user_id, today)] ∧
        (record_sweep_effects today r).audit_log.length = 1) ∧
      (daysFromCivil today ≠ daysFromCivil dl - r.reminder_days_before →
        record_sweep_effects today r = SweepEffects.empty)) ∧
    (r.purchase_deadline = none →
      check_and_send_deadline_reminder today (some t) (db1 ++ r :: db2) =
        check_and_send_deadline_reminder today (some t) (db1 ++ db2)) := by
  refine ⟨?_, ?_, ?_⟩
  · intro h
    have hPr : decide (r.state = RState.draft ∨ r.state = RState.confirmed) = true := by
      simpa using h
    simp only [check_some_eq, List.filter_append, List.filter_cons, hPr, if_true,
      sweep_loop_append, sweep_loop_cons]
  · intro dl hdl
    constructor
    · intro heq
      simp [record_sweep_effects, hdl, heq]
    · intro hne
      simp [record_sweep_effects, hdl, hne]
  · intro hnone
    have hempty : record_sweep_effects today r = SweepEffects.empty := by
      simp [record_sweep_effects, hnone]
    by_cases h : r.state = RState.draft ∨ r.state = RState.confirmed
    · have hPr : decide (r.state = RState.draft ∨ r.state = RState.confirmed) = true := by
        simpa using h
      simp only [check_some_eq, List.filter_append, List.filter_cons, hPr, if_true,
        sweep_loop_append, sweep_loop_cons, hempty, SweepEffects.empty_append]
    · have hPr : decide (r.state = RState.draft ∨ r.state = RState.confirmed) = false := by
        simpa using h
      simp only [check_some_eq, List.filter_append, List.filter_cons, hPr, Bool.false_eq_true,
        if_false]

/-- Witness for C1: on 2025-06-01 a draft record with deadline 2025-07-01
and a 30-day reminder fires its notification, and a record with no
deadline contributes nothing to the sweep alongside it. -/
theorem daily_sweep_reminder_witness :
    (record_sweep_effects d0601 recDraft).notifications =
      [⟨recDraft.id, recDraft.reminder_recipient_email, true⟩] ∧
    check_and_send_deadline_reminder d0601 (some "tmpl") [recDraft, recNoDeadline] =
      check_and_send_deadline_reminder d0601 (some "tmpl") [recDraft] :=
  ⟨(((daily_sweep_reminder d0601 "tmpl" recDraft [] []).2.1 ⟨2025, 7, 1⟩ rfl).1
      (by decide)).1,
   (daily_sweep_reminder d0601 "tmpl" recNoDeadline [recDraft] []).2.2 rfl⟩
